import Mathlib

/-!
Verification of the stock-screener core against its specification.

The Python sources are shallowly embedded: dictionaries of criteria become
association lists, Python `None` and absent dictionary keys become `Option`,
SQL `NULL` becomes `Option`, floats become rationals, and dates become
integers (day numbers).  Fallible code is modelled with `Except` / `Option`.
-/

namespace Screener

/-- A scalar Python value inside a criteria condition: a number, a string,
or `None`. -/
inductive PyScalar : Type where
  | num (q : ℚ)
  | str (s : String)
  | pynone
deriving DecidableEq, Repr

/-- A Python value as it appears inside a criteria condition dictionary.
Criteria operands are scalars or flat lists of scalars (the `in` operator
takes a list; nested lists never occur in criteria). -/
inductive PyVal : Type where
  | scalar (v : PyScalar)
  | list (xs : List PyScalar)
deriving DecidableEq, Repr

/-- Shorthand for a numeric operand. -/
def PyVal.num (q : ℚ) : PyVal := PyVal.scalar (PyScalar.num q)

/-- Shorthand for the Python `None` operand. -/
def PyVal.pynone : PyVal := PyVal.scalar PyScalar.pynone

/-- One condition dictionary of a criteria set, as consumed by
`CustomScreenBuilder._validate_criteria` and
`ScreeningEngine._build_where_clause`.  Each field is `Option` because the
corresponding dictionary key may be absent (`Option.none` = key missing;
a stored Python `None` is `some PyVal.pynone`). -/
structure Cond where
  operator : Option String
  value : Option PyVal
  minv : Option PyVal
  maxv : Option PyVal
deriving DecidableEq, Repr

/-- A criteria set: a Python dict from field name to condition, in insertion
order. -/
abbrev Criteria : Type := List (String × Cond)

/-- The `valid_operators` list of `CustomScreenBuilder._validate_criteria`. -/
def validOperators : List String := ["<", ">", "<=", ">=", "=", "!="]

/-- The `valid_fields` list of `CustomScreenBuilder._validate_criteria`. -/
def validFields : List String :=
  ["price_to_book", "price_to_earnings", "ev_ebitda",
   "roe", "roce", "opm", "npm",
   "debt_equity", "current_ratio", "interest_coverage",
   "revenue_cagr_3y", "revenue_cagr_5y", "profit_cagr_3y", "profit_cagr_5y",
   "altman_z_score", "promoter_holding", "ocf_to_net_profit",
   "ema_20", "ema_50", "macd", "choppiness_index", "atr_14",
   "market_cap", "price"]

/-- `CustomScreenBuilder._validate_criteria`: iterates the criteria dict in
order and raises `ValueError` at the first offending entry.  The Python
`isinstance(condition, dict)` check is vacuous here because the embedding
types every condition as a dictionary. -/
def validateCriteria : Criteria → Except String Unit
  | [] => .ok ()
  | (field, cond) :: rest =>
    if field ∉ validFields then
      .error ("Invalid field: " ++ field)
    else if cond.operator.isNone || cond.value.isNone then
      .error ("Condition for " ++ field ++ " must have operator and value keys")
    else if cond.operator.getD "" ∉ validOperators then
      .error ("Invalid operator: " ++ cond.operator.getD "")
    else
      validateCriteria rest

/-- The operator vocabulary asserted by the specification for claim C1
(spec words, for comparison with `validOperators` of the source). -/
def claimC1Operators : List String :=
  ["<", ">", "<=", ">=", "=", "!=", "between", "in"]

/-- Well-shapedness of an operand according to the words of claim C1:
`between` needs `min` and `max`, `in` needs a non-empty list, the
comparison operators need a scalar value. -/
def claimC1WellShaped (c : Cond) : Bool :=
  match c.operator.getD "" with
  | "between" => c.minv.isSome && c.maxv.isSome
  | "in" =>
    match c.value with
    | some (PyVal.list xs) => !xs.isEmpty
    | _ => false
  | _ => c.value.isSome

/-- Acceptance predicate claimed by C1: every predicate has a vocabulary
field and an operator in the claimed set, with a well-shaped operand. -/
def claimC1Accepts (cs : Criteria) : Bool :=
  cs.all fun p =>
    decide (p.1 ∈ validFields) &&
    decide (p.2.operator.getD "" ∈ claimC1Operators) &&
    claimC1WellShaped p.2

/-- A criteria set the claim says must be accepted: a vocabulary field with
a well-shaped `between` condition. -/
def c1Input : Criteria :=
  [("roe", { operator := some "between", value := some (PyVal.num 10),
             minv := some (PyVal.num 10), maxv := some (PyVal.num 20) })]

/-- Decidable success test for the validator result. -/
def validationOk (r : Except String Unit) : Bool :=
  match r with
  | .ok _ => true
  | .error _ => false

/-- C1 counterexample: the claim accepts a well-shaped `between` predicate
on the vocabulary field `roe`, but `_validate_criteria` rejects it, because
its operator list contains only the six comparison operators. -/
theorem c1_between_rejected :
    claimC1Accepts c1Input = true ∧
    validationOk (validateCriteria c1Input) = false := by
  constructor <;> rfl

/-- C1 (amended): validation succeeds exactly when every predicate has a
field in the fixed vocabulary, a condition carrying both an operator key
and a value key, and an operator among the six comparison operators
`<, >, <=, >=, =, !=`; `between` and `in` are always rejected. -/
theorem c1_validate_iff (cs : Criteria) :
    validateCriteria cs = .ok () ↔
      ∀ p ∈ cs, p.1 ∈ validFields ∧ p.2.operator.isSome ∧ p.2.value.isSome ∧
        p.2.operator.getD "" ∈ validOperators := by
  induction cs with
  | nil => simp [validateCriteria]
  | cons hd tl ih =>
    obtain ⟨field, cond⟩ := hd
    by_cases h1 : field ∈ validFields
    · rcases hop : cond.operator with _ | op
      · simp [validateCriteria, h1, hop, List.forall_mem_cons]
      · rcases hv : cond.value with _ | v
        · simp [validateCriteria, h1, hop, hv, List.forall_mem_cons]
        · by_cases h3 : op ∈ validOperators
          · simp [validateCriteria, h1, hop, hv, h3, List.forall_mem_cons, ih]
          · simp [validateCriteria, h1, hop, hv, h3, List.forall_mem_cons]
    · simp [validateCriteria, h1, List.forall_mem_cons]

/-! ## Criteria compiler: `ScreeningEngine._build_where_clause` -/

/-- The `column_table_map` of `_build_where_clause`: which table alias owns
each column. -/
def columnTableMap (f : String) : Option String :=
  if f ∈ ["market_cap", "sector", "industry"] then some "c"
  else if f ∈ ["price_to_book", "price_to_earnings", "ev_ebitda", "roe",
               "roce", "debt_equity", "current_ratio", "interest_coverage",
               "opm", "npm"] then some "d"
  else if f ∈ ["revenue_cagr_3y", "revenue_cagr_5y", "profit_cagr_3y",
               "profit_cagr_5y"] then some "g"
  else if f ∈ ["promoter_holding", "altman_z_score", "ocf_to_net_profit"]
    then some "q"
  else Option.none

/-- Table-qualified field name, as built by `_build_where_clause`. -/
def qualifiedField (f : String) : String :=
  match columnTableMap f with
  | some t => t ++ "." ++ f
  | Option.none => f

/-- Bound-parameter base name: `field.replace(".", "_")`.  Because the
pattern is the single character `.`, the replacement is a character map. -/
def paramName (f : String) : String :=
  ⟨f.data.map fun ch => if ch = '.' then '_' else ch⟩

/-- One iteration of the `_build_where_clause` loop: the clause text for one
criterion together with the parameter assignments it performs, in order.
`KeyError` (a `between` condition missing `min` or `max`) and `TypeError`
(an `in` condition whose value is not a list, so `len(value)` fails)
propagate as errors, as the raised exceptions do in the source. -/
def buildCond (field : String) (c : Cond) : Except String (String × List (String × PyVal)) :=
  let qf := qualifiedField field
  let pn := paramName field
  match c.operator with
  | Option.none => .error "KeyError: operator"
  | some op =>
    if op = "between" then
      match c.minv, c.maxv with
      | some lo, some hi =>
        .ok (qf ++ " BETWEEN :" ++ pn ++ "_min AND :" ++ pn ++ "_max",
             [(pn ++ "_min", lo), (pn ++ "_max", hi)])
      | _, _ => .error "KeyError: between bounds"
    else if op = "in" then
      match c.value.getD PyVal.pynone with
      | PyVal.list vs =>
        .ok (qf ++ " IN (" ++
               String.intercalate ","
                 ((List.range vs.length).map fun i => ":" ++ pn ++ "_" ++ toString i) ++
             ")",
             vs.enum.map fun p => (pn ++ "_" ++ toString p.1, PyVal.scalar p.2))
      | _ => .error "TypeError: object of scalar type has no len"
    else
      .ok (qf ++ " " ++ op ++ " :" ++ pn, [(pn, c.value.getD PyVal.pynone)])

/-- The Python dict assignment `params[key] = value`: an existing key keeps
its position and receives the new value, a new key is appended. -/
def dictInsert (d : List (String × PyVal)) (k : String) (v : PyVal) :
    List (String × PyVal) :=
  if d.any fun p => p.1 = k then
    d.map fun p => if p.1 = k then (k, v) else p
  else
    d ++ [(k, v)]

/-- Folds a sequence of assignments into a Python dict. -/
def pyDict (assignments : List (String × PyVal)) : List (String × PyVal) :=
  assignments.foldl (fun d p => dictInsert d p.1 p.2) []

/-- The `for field, condition in criteria.items()` loop of
`_build_where_clause`: collects the clause texts in order and the
parameter assignments in the order they are performed, stopping at the
first raised exception. -/
def buildClauses : Criteria → Except String (List String × List (String × PyVal))
  | [] => .ok ([], [])
  | (f, c) :: rest =>
    match buildCond f c, buildClauses rest with
    | .ok (cl, ps), .ok (cls, pss) => .ok (cl :: cls, ps ++ pss)
    | .error e, _ => .error e
    | _, .error e => .error e

/-- `ScreeningEngine._build_where_clause`: produces the WHERE text and the
dict of bound parameters.  Clause texts are joined with the requested
logic; the assignments collected by the loop build the `params` dict left
to right. -/
def buildWhereClause (criteria : Criteria) (logic : String) :
    Except String (String × List (String × PyVal)) :=
  match buildClauses criteria with
  | .error e => .error e
  | .ok (cls, assignments) =>
    .ok (String.intercalate (" " ++ logic ++ " ") cls, pyDict assignments)

/-- The value-erased shape of a condition: everything about a criterion
that is not an operand value (operator, and for `in` only the number of
elements of the operand list). -/
inductive CondShape : Type where
  | between
  | inList (n : ℕ)
  | cmp (op : String)
deriving DecidableEq, Repr

/-- Erases the operand values of a condition, keeping its shape.
Results in `Option.none` exactly when `buildCond` raises. -/
def condShape (c : Cond) : Option CondShape :=
  match c.operator with
  | Option.none => Option.none
  | some op =>
    if op = "between" then
      match c.minv, c.maxv with
      | some _, some _ => some CondShape.between
      | _, _ => Option.none
    else if op = "in" then
      match c.value.getD PyVal.pynone with
      | PyVal.list vs => some (CondShape.inList vs.length)
      | _ => Option.none
    else some (CondShape.cmp op)

/-- The clause text determined by a field name and a value-erased shape
alone (the specification side of claim C3: no literal operand value can
occur in the expression because the expression is a function of the
shapes only). -/
def shapeClause (field : String) (s : CondShape) : String :=
  let qf := qualifiedField field
  let pn := paramName field
  match s with
  | CondShape.between => qf ++ " BETWEEN :" ++ pn ++ "_min AND :" ++ pn ++ "_max"
  | CondShape.inList n =>
    qf ++ " IN (" ++
      String.intercalate "," ((List.range n).map fun i => ":" ++ pn ++ "_" ++ toString i) ++
    ")"
  | CondShape.cmp op => qf ++ " " ++ op ++ " :" ++ pn

/-- The ordered list of parameter assignments a criteria set performs:
every operand value, paired with its bound-parameter name. -/
def boundParams (criteria : Criteria) : List (String × PyVal) :=
  criteria.flatMap fun p =>
    let pn := paramName p.1
    match p.2.operator.getD "" with
    | "between" =>
      [(pn ++ "_min", p.2.minv.getD PyVal.pynone),
       (pn ++ "_max", p.2.maxv.getD PyVal.pynone)]
    | "in" =>
      match p.2.value.getD PyVal.pynone with
      | PyVal.list vs => vs.enum.map fun q => (pn ++ "_" ++ toString q.1, PyVal.scalar q.2)
      | _ => []
    | _ => [(pn, p.2.value.getD PyVal.pynone)]

/-- `buildCond` refines its shape: the clause text is `shapeClause` of the
value-erased condition, and the assignments are exactly the operand
bindings. -/
theorem buildCond_shape (field : String) (c : Cond) (out : String × List (String × PyVal))
    (h : buildCond field c = .ok out) :
    ∃ s, condShape c = some s ∧ out.1 = shapeClause field s := by
  rcases hop : c.operator with _ | op
  · rw [buildCond, hop] at h; exact Except.noConfusion h
  · by_cases hb : op = "between"
    · subst hb
      rcases hlo : c.minv with _ | lo <;> rcases hhi : c.maxv with _ | hi <;>
        simp only [buildCond, hop, hlo, hhi, if_pos] at h <;>
        first
          | exact Except.noConfusion h
          | exact ⟨CondShape.between, by simp [condShape, hop, hlo, hhi],
              by rw [← Except.ok.inj h]; rfl⟩
    · by_cases hi : op = "in"
      · subst hi
        rcases hv : c.value.getD PyVal.pynone with v | vs
        · simp only [buildCond, hop, if_neg hb, if_pos, hv] at h
          exact Except.noConfusion h
        · simp only [buildCond, hop, if_neg hb, if_pos, hv] at h
          refine ⟨CondShape.inList vs.length, by simp [condShape, hop, hv], ?_⟩
          rw [← Except.ok.inj h]; rfl
      · simp only [buildCond, hop, if_neg hb, if_neg hi] at h
        refine ⟨CondShape.cmp op, by simp [condShape, hop, hb, hi], ?_⟩
        rw [← Except.ok.inj h]; rfl

/-- `buildCond` binds exactly the operand values of the condition. -/
theorem buildCond_params (field : String) (c : Cond) (out : String × List (String × PyVal))
    (h : buildCond field c = .ok out) :
    out.2 = boundParams [(field, c)] := by
  rcases hop : c.operator with _ | op
  · rw [buildCond, hop] at h; exact Except.noConfusion h
  · by_cases hb : op = "between"
    · subst hb
      rcases hlo : c.minv with _ | lo <;> rcases hhi : c.maxv with _ | hi <;>
        simp only [buildCond, hop, hlo, hhi, if_pos] at h <;>
        first
          | exact Except.noConfusion h
          | (rw [← Except.ok.inj h]; simp [boundParams, hop, hlo, hhi])
    · by_cases hi : op = "in"
      · subst hi
        rcases hv : c.value.getD PyVal.pynone with v | vs
        · simp only [buildCond, hop, if_neg hb, if_pos, hv] at h
          exact Except.noConfusion h
        · simp only [buildCond, hop, if_neg hb, if_pos, hv] at h
          rw [← Except.ok.inj h]
          simp [boundParams, hop, hv]
      · simp only [buildCond, hop, if_neg hb, if_neg hi] at h
        rw [← Except.ok.inj h]
        simp [boundParams, hop, hb, hi]

/-- C3: whenever `_build_where_clause` succeeds, the filter expression is a
function of the field names and value-erased condition shapes alone — no
operand value can appear in it — and the returned bindings are exactly the
Python dict obtained from binding every operand value to its named
parameter (`between` to the closed-interval `BETWEEN :f_min AND :f_max`
test, `in` to membership over the explicit placeholder list
`:f_0, …, :f_(n-1)`, comparisons to `f op :f`). -/
theorem buildClauses_spec (cs : Criteria)
    (out : List String × List (String × PyVal))
    (h : buildClauses cs = .ok out) :
    (∃ shapes : List (String × CondShape),
        (cs.map fun p => (p.1, condShape p.2)) =
          shapes.map (fun q => (q.1, some q.2)) ∧
        out.1 = shapes.map fun q => shapeClause q.1 q.2) ∧
    out.2 = boundParams cs := by
  induction cs generalizing out with
  | nil =>
    obtain rfl : (([], []) : List String × List (String × PyVal)) = out :=
      Except.ok.inj h
    exact ⟨⟨[], by simp, rfl⟩, by simp [boundParams]⟩
  | cons hd tl ih =>
    obtain ⟨f, c⟩ := hd
    rw [buildClauses] at h
    rcases h1 : buildCond f c with e | ⟨cl, ps⟩ <;>
      rcases h2 : buildClauses tl with e2 | ⟨cls, pss⟩ <;>
      rw [h1, h2] at h
    · exact Except.noConfusion h
    · exact Except.noConfusion h
    · exact Except.noConfusion h
    · obtain rfl : (cl :: cls, ps ++ pss) = out := Except.ok.inj h
      obtain ⟨⟨shapes, hsh, hcl⟩, hps⟩ := ih (cls, pss) h2
      obtain ⟨s, hs, hclause⟩ := buildCond_shape f c (cl, ps) h1
      have hbound := buildCond_params f c (cl, ps) h1
      refine ⟨⟨(f, s) :: shapes, ?_, ?_⟩, ?_⟩
      · simp only [List.map_cons]
        exact congrArg₂ List.cons (by simp [hs]) hsh
      · simp only [List.map_cons]
        exact congrArg₂ List.cons hclause hcl
      · have hsplit : boundParams ((f, c) :: tl) = boundParams [(f, c)] ++ boundParams tl := by
          simp [boundParams]
        rw [show ((cl :: cls, ps ++ pss) : List String × List (String × PyVal)).2 =
              ps ++ pss from rfl, hsplit, ← hbound, ← hps]

/-- C3: whenever `_build_where_clause` succeeds, the filter expression is a
function of the field names and value-erased condition shapes alone — no
operand value can appear in it — and the returned bindings are exactly the
Python dict obtained from binding every operand value to its named
parameter (`between` to the closed-interval `BETWEEN :f_min AND :f_max`
test, `in` to membership over the explicit placeholder list
`:f_0, …, :f_(n-1)`, comparisons to `f op :f`). -/
theorem c3_no_raw_literals (criteria : Criteria) (logic : String)
    (out : String × List (String × PyVal))
    (h : buildWhereClause criteria logic = .ok out) :
    (∃ shapes : List (String × CondShape),
        (criteria.map fun p => (p.1, condShape p.2)) =
          shapes.map (fun q => (q.1, some q.2)) ∧
        out.1 = String.intercalate (" " ++ logic ++ " ")
          (shapes.map fun q => shapeClause q.1 q.2)) ∧
    out.2 = pyDict (boundParams criteria) := by
  rw [buildWhereClause] at h
  rcases hm : buildClauses criteria with e | ⟨cls, assignments⟩
  · rw [hm] at h; exact Except.noConfusion h
  · rw [hm] at h
    obtain rfl : (String.intercalate (" " ++ logic ++ " ") cls, pyDict assignments) = out :=
      Except.ok.inj h
    obtain ⟨⟨shapes, hsh, hcl⟩, hps⟩ := buildClauses_spec criteria (cls, assignments) hm
    exact ⟨⟨shapes, hsh, by simp only at hcl; rw [hcl]⟩, by simp only at hps; rw [hps]⟩

/-- Equality of compiler outputs is decidable (used to evaluate the
embedded compiler on concrete criteria). -/
instance : DecidableEq (Except String (String × List (String × PyVal))) :=
  fun a b =>
    match a, b with
    | .error e1, .error e2 =>
      if h : e1 = e2 then .isTrue (by rw [h])
      else .isFalse fun hh => h (Except.error.inj hh)
    | .error _, .ok _ => .isFalse fun hh => Except.noConfusion hh
    | .ok _, .error _ => .isFalse fun hh => Except.noConfusion hh
    | .ok x, .ok y =>
      if h : x = y then .isTrue (by rw [h])
      else .isFalse fun hh => h (Except.ok.inj hh)

/-- A criteria set exercising a comparison, a `between` and an `in`
condition, for the C3 witness. -/
def c3Input : Criteria :=
  [("roe", { operator := some ">", value := some (PyVal.num 15),
             minv := Option.none, maxv := Option.none }),
   ("market_cap", { operator := some "between", value := Option.none,
                    minv := some (PyVal.num 500), maxv := some (PyVal.num 1000) }),
   ("sector", { operator := some "in",
                value := some (PyVal.list [PyScalar.str "IT", PyScalar.str "Banks"]),
                minv := Option.none, maxv := Option.none })]

/-- C3 witness: the theorem applied at a concrete criteria set containing
all three condition forms. -/
theorem c3_no_raw_literals_witness :
    (∃ shapes : List (String × CondShape),
        (c3Input.map fun p => (p.1, condShape p.2)) =
          shapes.map (fun q => (q.1, some q.2)) ∧
        ("d.roe > :roe AND c.market_cap BETWEEN :market_cap_min " ++
         "AND :market_cap_max AND c.sector IN (:sector_0,:sector_1)") =
          String.intercalate (" " ++ "AND" ++ " ")
            (shapes.map fun q => shapeClause q.1 q.2)) ∧
    [("roe", PyVal.num 15), ("market_cap_min", PyVal.num 500),
     ("market_cap_max", PyVal.num 1000),
     ("sector_0", PyVal.scalar (PyScalar.str "IT")),
     ("sector_1", PyVal.scalar (PyScalar.str "Banks"))] =
      pyDict (boundParams c3Input) :=
  c3_no_raw_literals c3Input "AND"
    ("d.roe > :roe AND c.market_cap BETWEEN :market_cap_min " ++
     "AND :market_cap_max AND c.sector IN (:sector_0,:sector_1)",
     [("roe", PyVal.num 15), ("market_cap_min", PyVal.num 500),
      ("market_cap_max", PyVal.num 1000),
      ("sector_0", PyVal.scalar (PyScalar.str "IT")),
      ("sector_1", PyVal.scalar (PyScalar.str "Banks"))])
    (by decide)

/-! ## Screening engine: `ScreeningEngine.apply_criteria`

The executed SQL query is embedded relationally: the five tables are lists
of rows, `LEFT JOIN ... ON c.ticker = x.ticker` is the nested product with
a single null row for an empty match set, the WHERE clause is evaluated in
SQL three-valued logic, then `SELECT DISTINCT` deduplicates and
`ORDER BY d.roe DESC, c.market_cap DESC` sorts (SQL `NULL` sorts last
under `DESC`). -/

/-- `company_master` row. -/
structure CompanyRow where
  ticker : String
  companyName : String
  sector : Option String
  industry : Option String
  marketCap : Option ℚ
deriving DecidableEq, Repr

/-- `fundamentals` row (`rid` is the autoincrement primary key; only the
columns the screening query touches are carried). -/
structure FundRow where
  rid : ℕ
  ticker : String
  asOfDate : ℤ
  price : Option ℚ
deriving DecidableEq, Repr

/-- `derived_metrics` row. -/
structure DerivedRow where
  rid : ℕ
  ticker : String
  asOfDate : ℤ
  priceToBook : Option ℚ
  priceToEarnings : Option ℚ
  evEbitda : Option ℚ
  roe : Option ℚ
  roce : Option ℚ
  debtEquity : Option ℚ
  curRat : Option ℚ
  interestCoverage : Option ℚ
  opm : Option ℚ
  npm : Option ℚ
deriving DecidableEq, Repr

/-- `growth_metrics` row. -/
structure GrowthRow where
  rid : ℕ
  ticker : String
  asOfDate : ℤ
  revenueCagr3y : Option ℚ
  revenueCagr5y : Option ℚ
  profitCagr3y : Option ℚ
  profitCagr5y : Option ℚ
deriving DecidableEq, Repr

/-- `quality_metrics` row. -/
structure QualityRow where
  rid : ℕ
  ticker : String
  asOfDate : ℤ
  promoterHolding : Option ℚ
  altmanZScore : Option ℚ
  ocfToNetProfit : Option ℚ
deriving DecidableEq, Repr

/-- The database state the screening query reads. -/
structure DB where
  companies : List CompanyRow
  fundamentals : List FundRow
  derived : List DerivedRow
  growth : List GrowthRow
  quality : List QualityRow

/-- One row of the join product: the company row and the matched row (or
SQL null row) of each snapshot family. -/
structure Joined where
  c : CompanyRow
  f : Option FundRow
  d : Option DerivedRow
  g : Option GrowthRow
  q : Option QualityRow
deriving DecidableEq, Repr

/-- `LEFT JOIN` match set: all matching rows, or one null row. -/
def leftJoin {α : Type} (rows : List α) : List (Option α) :=
  match rows with
  | [] => [Option.none]
  | _ => rows.map some

/-- The `FROM ... LEFT JOIN` product of the screening query. -/
def joinedRows (db : DB) : List Joined :=
  (db.companies.map fun c =>
    ((leftJoin (db.fundamentals.filter fun r => r.ticker == c.ticker)).map fun f =>
      ((leftJoin (db.derived.filter fun r => r.ticker == c.ticker)).map fun d =>
        ((leftJoin (db.growth.filter fun r => r.ticker == c.ticker)).map fun g =>
          (leftJoin (db.quality.filter fun r => r.ticker == c.ticker)).map fun q =>
            Joined.mk c f d g q).flatten).flatten).flatten).flatten

/-- Value of a criteria column on a joined row (`some (some v)` = a value,
`some Option.none` = SQL `NULL`, outer `Option.none` = no such column in
the query, which would make the SQL statement fail). -/
def fieldValue (j : Joined) (field : String) : Option (Option PyScalar) :=
  if field = "market_cap" then some (j.c.marketCap.map PyScalar.num)
  else if field = "sector" then some (j.c.sector.map PyScalar.str)
  else if field = "industry" then some (j.c.industry.map PyScalar.str)
  else if field = "price" then some ((j.f.bind FundRow.price).map PyScalar.num)
  else if field = "price_to_book" then some ((j.d.bind DerivedRow.priceToBook).map PyScalar.num)
  else if field = "price_to_earnings" then some ((j.d.bind DerivedRow.priceToEarnings).map PyScalar.num)
  else if field = "ev_ebitda" then some ((j.d.bind DerivedRow.evEbitda).map PyScalar.num)
  else if field = "roe" then some ((j.d.bind DerivedRow.roe).map PyScalar.num)
  else if field = "roce" then some ((j.d.bind DerivedRow.roce).map PyScalar.num)
  else if field = "debt_equity" then some ((j.d.bind DerivedRow.debtEquity).map PyScalar.num)
  else if field = "current_ratio" then some ((j.d.bind DerivedRow.curRat).map PyScalar.num)
  else if field = "interest_coverage" then some ((j.d.bind DerivedRow.interestCoverage).map PyScalar.num)
  else if field = "opm" then some ((j.d.bind DerivedRow.opm).map PyScalar.num)
  else if field = "npm" then some ((j.d.bind DerivedRow.npm).map PyScalar.num)
  else if field = "revenue_cagr_3y" then some ((j.g.bind GrowthRow.revenueCagr3y).map PyScalar.num)
  else if field = "revenue_cagr_5y" then some ((j.g.bind GrowthRow.revenueCagr5y).map PyScalar.num)
  else if field = "profit_cagr_3y" then some ((j.g.bind GrowthRow.profitCagr3y).map PyScalar.num)
  else if field = "profit_cagr_5y" then some ((j.g.bind GrowthRow.profitCagr5y).map PyScalar.num)
  else if field = "promoter_holding" then some ((j.q.bind QualityRow.promoterHolding).map PyScalar.num)
  else if field = "altman_z_score" then some ((j.q.bind QualityRow.altmanZScore).map PyScalar.num)
  else if field = "ocf_to_net_profit" then some ((j.q.bind QualityRow.ocfToNetProfit).map PyScalar.num)
  else Option.none

/-- SQL three-valued truth value. -/
inductive TV : Type where
  | t
  | f
  | u
deriving DecidableEq, Repr

/-- SQL `AND`. -/
def tvAnd : TV → TV → TV
  | TV.f, _ => TV.f
  | _, TV.f => TV.f
  | TV.t, TV.t => TV.t
  | _, _ => TV.u

/-- SQL `OR`. -/
def tvOr : TV → TV → TV
  | TV.t, _ => TV.t
  | _, TV.t => TV.t
  | TV.f, TV.f => TV.f
  | _, _ => TV.u

/-- Lifts a boolean to a definite truth value. -/
def tvOfBool (b : Bool) : TV := if b then TV.t else TV.f

/-- Comparison of two non-null SQL scalars.  Screens compare numbers with
every operator and strings only with equality (SQL cross-type ordering
never arises for the screened columns). -/
def scalarCmp (op : String) (v w : PyScalar) : TV :=
  match v, w with
  | PyScalar.num x, PyScalar.num y =>
    if op = "<" then tvOfBool (decide (x < y))
    else if op = ">" then tvOfBool (decide (y < x))
    else if op = "<=" then tvOfBool (decide (x ≤ y))
    else if op = ">=" then tvOfBool (decide (y ≤ x))
    else if op = "=" then tvOfBool (decide (x = y))
    else if op = "!=" then tvOfBool (decide (¬x = y))
    else TV.u
  | PyScalar.str a, PyScalar.str b =>
    if op = "=" then tvOfBool (decide (a = b))
    else if op = "!=" then tvOfBool (decide (¬a = b))
    else TV.u
  | _, _ => TV.u

/-- SQL comparison: `NULL` on either side is unknown. -/
def sqlCmp (op : String) (v w : Option PyScalar) : TV :=
  match v, w with
  | some a, some b => scalarCmp op a b
  | _, _ => TV.u

/-- A bound parameter as an SQL scalar (`None` binds as `NULL`). -/
def litToSql (w : PyVal) : Option PyScalar :=
  match w with
  | PyVal.scalar PyScalar.pynone => Option.none
  | PyVal.scalar s => some s
  | PyVal.list _ => Option.none

/-- Evaluates the SQL predicate one criterion compiles to on a joined
row: `BETWEEN` is the closed interval, `IN` is the disjunction of
equalities, comparison operators compare directly. -/
def evalCondTV (j : Joined) (field : String) (c : Cond) : TV :=
  match fieldValue j field with
  | Option.none => TV.u
  | some v =>
    match c.operator.getD "" with
    | "between" =>
      tvAnd (sqlCmp ">=" v (litToSql (c.minv.getD PyVal.pynone)))
            (sqlCmp "<=" v (litToSql (c.maxv.getD PyVal.pynone)))
    | "in" =>
      match c.value.getD PyVal.pynone with
      | PyVal.list xs =>
        xs.foldl (fun acc x => tvOr acc (sqlCmp "=" v (litToSql (PyVal.scalar x)))) TV.f
      | _ => TV.u
    | op => sqlCmp op v (litToSql (c.value.getD PyVal.pynone))

/-- The `additional_filters` argument of `apply_criteria`: a sector
allow-list and a minimum market cap.  A missing key, an empty sector list
and a zero minimum are all Python-falsy, so the corresponding clause is
not added. -/
structure AdditionalFilters where
  sector : Option (List String)
  minMarketCap : Option ℚ

/-- Truth value of the always-AND-combined additional-filter clauses on a
joined row. -/
def additionalTV (j : Joined) (af : AdditionalFilters) : TV :=
  let sectorTV :=
    match af.sector with
    | some (s :: rest) =>
      (s :: rest).foldl
        (fun acc x => tvOr acc (sqlCmp "=" (j.c.sector.map PyScalar.str)
          (some (PyScalar.str x)))) TV.f
    | _ => TV.t
  let mcapTV :=
    match af.minMarketCap with
    | some m => if m = 0 then TV.t
                else sqlCmp ">=" (j.c.marketCap.map PyScalar.num) (some (PyScalar.num m))
    | Option.none => TV.t
  tvAnd sectorTV mcapTV

/-- WHERE truth value of a full criteria set on one joined row.  Criteria
clauses are combined with the requested logic (`OR` or anything else,
which SQL treats as `AND` for the two values the engine ever passes),
then AND-combined with the additional filters. -/
def whereTV (j : Joined) (criteria : Criteria) (logic : String)
    (af : AdditionalFilters) : TV :=
  let combine := if logic = "OR" then tvOr else tvAnd
  let screenTV :=
    match criteria.map fun p => evalCondTV j p.1 p.2 with
    | [] => TV.u
    | tv :: tvs => tvs.foldl combine tv
  tvAnd screenTV (additionalTV j af)

/-- One output row of the screening query (`SELECT DISTINCT` column
list). -/
structure ResultRow where
  ticker : String
  companyName : String
  sector : Option String
  industry : Option String
  marketCap : Option ℚ
  price : Option ℚ
  priceToBook : Option ℚ
  priceToEarnings : Option ℚ
  evEbitda : Option ℚ
  roe : Option ℚ
  roce : Option ℚ
  debtEquity : Option ℚ
  curRat : Option ℚ
  interestCoverage : Option ℚ
  opm : Option ℚ
  npm : Option ℚ
  revenueCagr3y : Option ℚ
  profitCagr3y : Option ℚ
  promoterHolding : Option ℚ
  altmanZScore : Option ℚ
  ocfToNetProfit : Option ℚ
deriving DecidableEq, Repr

/-- Projection of a joined row onto the SELECT column list. -/
def project (j : Joined) : ResultRow where
  ticker := j.c.ticker
  companyName := j.c.companyName
  sector := j.c.sector
  industry := j.c.industry
  marketCap := j.c.marketCap
  price := j.f.bind FundRow.price
  priceToBook := j.d.bind DerivedRow.priceToBook
  priceToEarnings := j.d.bind DerivedRow.priceToEarnings
  evEbitda := j.d.bind DerivedRow.evEbitda
  roe := j.d.bind DerivedRow.roe
  roce := j.d.bind DerivedRow.roce
  debtEquity := j.d.bind DerivedRow.debtEquity
  curRat := j.d.bind DerivedRow.curRat
  interestCoverage := j.d.bind DerivedRow.interestCoverage
  opm := j.d.bind DerivedRow.opm
  npm := j.d.bind DerivedRow.npm
  revenueCagr3y := j.g.bind GrowthRow.revenueCagr3y
  profitCagr3y := j.g.bind GrowthRow.profitCagr3y
  promoterHolding := j.q.bind QualityRow.promoterHolding
  altmanZScore := j.q.bind QualityRow.altmanZScore
  ocfToNetProfit := j.q.bind QualityRow.ocfToNetProfit

/-- Keeps the first occurrence of each element (`SELECT DISTINCT`). -/
def pyDistinctAux {α : Type} [DecidableEq α] (seen : List α) : List α → List α
  | [] => []
  | r :: rest =>
    if r ∈ seen then pyDistinctAux seen rest
    else r :: pyDistinctAux (r :: seen) rest

/-- First-occurrence deduplication. -/
def pyDistinct {α : Type} [DecidableEq α] (l : List α) : List α :=
  pyDistinctAux [] l

/-- Stable insertion into a sorted list (`le x y` = `x` may precede `y`). -/
def insertSorted {α : Type} (le : α → α → Bool) (x : α) : List α → List α
  | [] => [x]
  | y :: ys => if le x y then x :: y :: ys else y :: insertSorted le x ys

/-- Stable insertion sort. -/
def sortByKey {α : Type} (le : α → α → Bool) (l : List α) : List α :=
  l.foldr (insertSorted le) []

/-- Strict descending-order test on nullable keys: SQL `NULL` is the
smallest value, so it sorts last under `DESC`. -/
def optGt (x y : Option ℚ) : Bool :=
  match x, y with
  | some a, some b => decide (b < a)
  | some _, Option.none => true
  | _, _ => false

/-- `ORDER BY d.roe DESC, c.market_cap DESC` as a before-or-equal test. -/
def rowLe (a b : ResultRow) : Bool :=
  if a.roe = b.roe then !optGt b.marketCap a.marketCap
  else optGt a.roe b.roe

/-- `ScreeningEngine.apply_criteria`: the screening query executed against
the database state.  Note the joins carry no as-of-date restriction: every
snapshot row of a ticker participates. -/
def applyCriteria (db : DB) (criteria : Criteria) (logic : String)
    (af : AdditionalFilters) : List ResultRow :=
  sortByKey rowLe
    (pyDistinct
      (((joinedRows db).filter fun j => whereTV j criteria logic af == TV.t).map project))

/-- The latest snapshot row of a family for a ticker: maximum as-of-date,
ties broken by the most recently inserted record (largest id).  This is
the join the specification describes for claim C2, written from the spec
for comparison with `applyCriteria`. -/
def latestFor {α : Type} (tick : α → String) (asOf : α → ℤ) (rid : α → ℕ)
    (t : String) (rows : List α) : Option α :=
  (rows.filter fun r => tick r == t).foldl
    (fun acc r =>
      match acc with
      | Option.none => some r
      | some b =>
        if asOf b < asOf r ∨ (asOf r = asOf b ∧ rid b < rid r) then some r else some b)
    Option.none

/-- The join product the claim describes: each company joined only to its
latest row per metric family. -/
def joinedRowsLatest (db : DB) : List Joined :=
  db.companies.map fun c =>
    Joined.mk c
      (latestFor FundRow.ticker FundRow.asOfDate FundRow.rid c.ticker db.fundamentals)
      (latestFor DerivedRow.ticker DerivedRow.asOfDate DerivedRow.rid c.ticker db.derived)
      (latestFor GrowthRow.ticker GrowthRow.asOfDate GrowthRow.rid c.ticker db.growth)
      (latestFor QualityRow.ticker QualityRow.asOfDate QualityRow.rid c.ticker db.quality)

/-- Claim-side variant of `applyCriteria` that joins each ticker only to
its latest snapshot per family. -/
def applyCriteriaLatest (db : DB) (criteria : Criteria) (logic : String)
    (af : AdditionalFilters) : List ResultRow :=
  sortByKey rowLe
    (pyDistinct
      (((joinedRowsLatest db).filter fun j => whereTV j criteria logic af == TV.t).map project))

/-- A derived-metrics row with every metric but ROE null. -/
def mkDerivedRoe (rid : ℕ) (asOfDate : ℤ) (roe : ℚ) : DerivedRow where
  rid := rid
  ticker := "TICK"
  asOfDate := asOfDate
  priceToBook := Option.none
  priceToEarnings := Option.none
  evEbitda := Option.none
  roe := some roe
  roce := Option.none
  debtEquity := Option.none
  curRat := Option.none
  interestCoverage := Option.none
  opm := Option.none
  npm := Option.none

/-- A ticker with two derived-metric snapshots: a stale one (as-of-date
100) with ROE 20 and the latest one (as-of-date 200) with ROE 5. -/
def c2DB : DB where
  companies := [⟨"TICK", "Tick Ltd", some "IT", some "Software", some 1000⟩]
  fundamentals := []
  derived := [mkDerivedRoe 1 100 20, mkDerivedRoe 2 200 5]
  growth := []
  quality := []

/-- The screen `roe > 15`. -/
def c2Criteria : Criteria :=
  [("roe", { operator := some ">", value := some (PyVal.num 15),
             minv := Option.none, maxv := Option.none })]

/-- No additional filters. -/
def noFilters : AdditionalFilters := ⟨Option.none, Option.none⟩

/-- C2: the screening query matches the ticker through its stale snapshot
row (ROE 20, as-of-date 100) even though the latest snapshot (ROE 5)
fails the screen; restricting the join to the latest row per family, as
the claim requires, would return no rows.  The claimed latest-snapshot
selection is absent from `apply_criteria`. -/
theorem c2_stale_snapshot_selected :
    (applyCriteria c2DB c2Criteria "AND" noFilters).map ResultRow.roe = [some 20] ∧
    (applyCriteriaLatest c2DB c2Criteria "AND" noFilters).map ResultRow.roe = [] := by
  decide

/-! ## Screen statistics: `ScreeningEngine.get_screen_statistics` -/

/-- Pandas column mean with default `skipna`: the mean of the present
values; `NaN` (here `Option.none`) when no value is present. -/
def pdMean (xs : List (Option ℚ)) : Option ℚ :=
  let p := xs.filterMap id
  if p.isEmpty then Option.none else some (p.sum / p.length)

/-- Pandas column median with default `skipna`: the middle of the sorted
present values, averaging the two middles for an even count; `NaN` when
no value is present. -/
def pdMedian (xs : List (Option ℚ)) : Option ℚ :=
  let p := sortByKey (fun a b => decide (a ≤ b)) (xs.filterMap id)
  let n := p.length
  if n = 0 then Option.none
  else if n % 2 = 1 then some (p.getD (n / 2) 0)
  else some ((p.getD (n / 2 - 1) 0 + p.getD (n / 2) 0) / 2)

/-- `value_counts().to_dict()`: occurrence counts of the present sector
values, most frequent first (stable for ties). -/
def valueCounts (xs : List (Option String)) : List (String × ℕ) :=
  let present := xs.filterMap id
  sortByKey (fun a b => decide (b.2 ≤ a.2))
    ((pyDistinct present).map fun k => (k, present.count k))

/-- The statistics dictionary.  On an empty result the Python code returns
a dictionary without the `avg_market_cap` key; both that and `NaN` are
modelled as `Option.none`. -/
structure ScreenStats where
  totalStocks : ℕ
  sectors : List (String × ℕ)
  avgRoe : Option ℚ
  medianPb : Option ℚ
  medianDe : Option ℚ
  avgMarketCap : Option ℚ
deriving DecidableEq, Repr

/-- `ScreeningEngine.get_screen_statistics`. -/
def getScreenStatistics (results : List ResultRow) : ScreenStats :=
  if results.isEmpty then
    ⟨0, [], Option.none, Option.none, Option.none, Option.none⟩
  else
    ⟨results.length,
     valueCounts (results.map ResultRow.sector),
     pdMean (results.map ResultRow.roe),
     pdMedian (results.map ResultRow.priceToBook),
     pdMedian (results.map ResultRow.debtEquity),
     pdMean (results.map ResultRow.marketCap)⟩

theorem filterMap_filter_isSome {α : Type} (g : α → Option ℚ) (rows : List α) :
    ((rows.filter fun r => (g r).isSome).map g).filterMap id =
      (rows.map g).filterMap id := by
  induction rows with
  | nil => rfl
  | cons r rest ih =>
    rcases hv : g r with _ | v
    · simp [List.filter_cons, hv, ih]
    · simp [List.filter_cons, hv, ih]

theorem stats_avgRoe (rows : List ResultRow) :
    (getScreenStatistics rows).avgRoe = pdMean (rows.map ResultRow.roe) := by
  cases rows with
  | nil => rfl
  | cons r rest => rfl

theorem stats_medianPb (rows : List ResultRow) :
    (getScreenStatistics rows).medianPb = pdMedian (rows.map ResultRow.priceToBook) := by
  cases rows with
  | nil => rfl
  | cons r rest => rfl

theorem stats_medianDe (rows : List ResultRow) :
    (getScreenStatistics rows).medianDe = pdMedian (rows.map ResultRow.debtEquity) := by
  cases rows with
  | nil => rfl
  | cons r rest => rfl

theorem stats_avgMarketCap (rows : List ResultRow) :
    (getScreenStatistics rows).avgMarketCap = pdMean (rows.map ResultRow.marketCap) := by
  cases rows with
  | nil => rfl
  | cons r rest => rfl

/-- A result row with every metric column null except those supplied. -/
def mkResultRow (t : String) (roe marketCap : Option ℚ) : ResultRow where
  ticker := t
  companyName := t
  sector := Option.none
  industry := Option.none
  marketCap := marketCap
  price := Option.none
  priceToBook := Option.none
  priceToEarnings := Option.none
  evEbitda := Option.none
  roe := roe
  roce := Option.none
  debtEquity := Option.none
  curRat := Option.none
  interestCoverage := Option.none
  opm := Option.none
  npm := Option.none
  revenueCagr3y := Option.none
  profitCagr3y := Option.none
  promoterHolding := Option.none
  altmanZScore := Option.none
  ocfToNetProfit := Option.none

/-- C8: the statistics operation is total — an empty result yields count
zero, an empty sector histogram and absent aggregates — and every
aggregate is computed only over the rows where its metric is present:
dropping the rows with a missing metric does not change the aggregate,
and a concrete two-row result (ROE 20 and ROE missing) averages to 20,
not to 10 as treating the missing value as zero would. -/
theorem c8_stats_ignore_missing :
    getScreenStatistics [] =
      ⟨0, [], Option.none, Option.none, Option.none, Option.none⟩ ∧
    (∀ rows : List ResultRow,
      (getScreenStatistics rows).avgRoe =
        (getScreenStatistics (rows.filter fun r => r.roe.isSome)).avgRoe ∧
      (getScreenStatistics rows).medianPb =
        (getScreenStatistics (rows.filter fun r => r.priceToBook.isSome)).medianPb ∧
      (getScreenStatistics rows).medianDe =
        (getScreenStatistics (rows.filter fun r => r.debtEquity.isSome)).medianDe ∧
      (getScreenStatistics rows).avgMarketCap =
        (getScreenStatistics (rows.filter fun r => r.marketCap.isSome)).avgMarketCap) ∧
    (getScreenStatistics
      [mkResultRow "A" (some 20) Option.none,
       mkResultRow "B" Option.none Option.none]).avgRoe = some 20 := by
  refine ⟨rfl, fun rows => ⟨?_, ?_, ?_, ?_⟩, ?_⟩
  · rw [stats_avgRoe, stats_avgRoe, pdMean, pdMean,
      filterMap_filter_isSome ResultRow.roe rows]
  · rw [stats_medianPb, stats_medianPb, pdMedian, pdMedian,
      filterMap_filter_isSome ResultRow.priceToBook rows]
  · rw [stats_medianDe, stats_medianDe, pdMedian, pdMedian,
      filterMap_filter_isSome ResultRow.debtEquity rows]
  · rw [stats_avgMarketCap, stats_avgMarketCap, pdMean, pdMean,
      filterMap_filter_isSome ResultRow.marketCap rows]
  · rw [stats_avgRoe]
    norm_num [pdMean, mkResultRow, List.filterMap_cons]

/-! ## Backtest engine: `BacktestEngine.run_backtest`,
`_backtest_single_period`, `_calculate_return`

The screening step and the per-ticker price fetches are the abstract
collaborators of the engine: the screen outcome is an `Except` (the
screening engine re-raises on failure) and the fetched close-price history
is an `Option (List ℚ)` per ticker (`Option.none` = fetch failed or the
provider raised).  Dates are integer day numbers. -/

/-- A row of the screening result as the backtest consumes it. -/
structure ScreenRow where
  ticker : String
  companyName : Option String
deriving DecidableEq, Repr

/-- Output of `_calculate_return`. -/
structure ReturnData where
  buyPrice : ℚ
  sellPrice : ℚ
  ret : ℚ
deriving DecidableEq, Repr

/-- `BacktestEngine._calculate_return` on a fetched close-price history:
`None` when fewer than two observations exist (and when the buy price is
zero, where the Python division raises and the exception handler returns
`None`); otherwise first close as buy, last close as sell, and the
percentage return. -/
def calculateReturn (hist : List ℚ) : Option ReturnData :=
  match hist with
  | [] => Option.none
  | [_] => Option.none
  | a :: b :: rest =>
    if a = 0 then Option.none
    else
      let sell := (b :: rest).getLast (List.cons_ne_nil b rest)
      some ⟨a, sell, (sell - a) / a * 100⟩

/-- One entry of the per-ticker detail list. -/
structure Detail where
  ticker : String
  companyName : String
  buyPrice : ℚ
  sellPrice : ℚ
  ret : ℚ
  screenDate : ℤ
  sellDate : ℤ
deriving DecidableEq, Repr

/-- Python `max(l, key=...)`: the first element attaining the maximal
key. -/
def pyMaxBy {α : Type} (key : α → ℚ) : List α → Option α
  | [] => Option.none
  | a :: rest =>
    match pyMaxBy key rest with
    | Option.none => some a
    | some b => some (if key a < key b then b else a)

/-- Python `min(l, key=...)`: the first element attaining the minimal
key. -/
def pyMinBy {α : Type} (key : α → ℚ) : List α → Option α
  | [] => Option.none
  | a :: rest =>
    match pyMinBy key rest with
    | Option.none => some a
    | some b => some (if key b < key a then b else a)

/-- `np.mean`. -/
def listMean (xs : List ℚ) : ℚ := xs.sum / xs.length

/-- `np.median`: middle of the sorted list, averaging the two middles for
an even length. -/
def listMedian (xs : List ℚ) : ℚ :=
  let p := sortByKey (fun a b => decide (a ≤ b)) xs
  let n := p.length
  if n % 2 = 1 then p.getD (n / 2) 0
  else (p.getD (n / 2 - 1) 0 + p.getD (n / 2) 0) / 2

/-- Population variance; `np.std` is its square root, kept squared here to
stay inside the rationals. -/
def popVariance (xs : List ℚ) : ℚ :=
  ((xs.map fun x => (x - listMean xs) ^ 2).sum) / xs.length

/-- The dictionary `_backtest_single_period` returns.  The fields that
only the non-empty-returns branch writes are `Option` (absent key =
`Option.none`), matching the `results.get` reads in `run_backtest`. -/
structure SPR where
  totalStocks : ℕ
  stocksPassed : ℕ
  averageReturn : ℚ
  medianReturn : ℚ
  bestPerformer : Option String
  worstPerformer : Option String
  winningStocks : Option ℕ
  losingStocks : Option ℕ
  maxReturn : Option ℚ
  minReturn : Option ℚ
  stdSqReturn : Option ℚ
  details : List Detail
deriving DecidableEq, Repr

/-- The aggregation tail of `_backtest_single_period` (lines building the
result dict from the collected returns and details). -/
def aggregateResults (numTickers stocksPassed : ℕ) (details : List Detail) : SPR :=
  let returns := details.map Detail.ret
  if returns.isEmpty then
    ⟨numTickers, stocksPassed, 0, 0, Option.none, Option.none, Option.none,
     Option.none, Option.none, Option.none, Option.none, []⟩
  else
    ⟨numTickers, stocksPassed, listMean returns, listMedian returns,
     (pyMaxBy Detail.ret details).map Detail.ticker,
     (pyMinBy Detail.ret details).map Detail.ticker,
     some (returns.countP fun r => decide (0 < r)),
     some (returns.countP fun r => decide (r < 0)),
     pyMaxBy (fun x => x) returns,
     pyMinBy (fun x => x) returns,
     some (popVariance returns),
     details⟩

/-- `BacktestEngine._backtest_single_period`: `Option.none` models the
empty dict the exception handler returns when the screening step raises.
Each matched row is priced over `[screen_date, hold_end]`; tickers whose
fetch fails or has fewer than two closes are skipped. -/
def backtestSinglePeriod (tickers : List String)
    (screenOutcome : Except String (List ScreenRow))
    (prices : String → Option (List ℚ))
    (screenDate endDate holdingPeriodDays : ℤ) : Option SPR :=
  match screenOutcome with
  | .error _ => Option.none
  | .ok rows =>
    if rows.isEmpty then
      some ⟨tickers.length, 0, 0, 0, Option.none, Option.none, Option.none,
            Option.none, Option.none, Option.none, Option.none, []⟩
    else
      let holdEnd := min (screenDate + holdingPeriodDays) endDate
      let details := rows.filterMap fun row =>
        ((prices row.ticker).bind calculateReturn).map fun rd =>
          Detail.mk row.ticker (row.companyName.getD row.ticker)
            rd.buyPrice rd.sellPrice rd.ret screenDate holdEnd
      some (aggregateResults tickers.length rows.length details)

/-- A persisted `backtest_results` row. -/
structure BacktestRecord where
  screenName : String
  backtestDate : ℤ
  startDate : ℤ
  endDate : ℤ
  totalStocksScreened : ℕ
  stocksPassed : ℕ
  averageReturn : ℚ
  medianReturn : ℚ
  bestPerformer : Option String
  worstPerformer : Option String
  resultsDetail : List Detail
deriving DecidableEq, Repr

/-- `BacktestEngine.run_backtest`: runs the single period, then persists a
record built with `results.get(key, default)` reads — so an empty results
dict (a swallowed error) persists a zero record — and returns the results
dict to the caller. -/
def runBacktest (screenName : String) (tickers : List String)
    (screenOutcome : Except String (List ScreenRow))
    (prices : String → Option (List ℚ))
    (startDate endDate holdingPeriodDays today : ℤ)
    (store : List BacktestRecord) : List BacktestRecord × Option SPR :=
  let results :=
    backtestSinglePeriod tickers screenOutcome prices startDate endDate holdingPeriodDays
  let record : BacktestRecord :=
    ⟨screenName, today, startDate, endDate,
     (results.map SPR.totalStocks).getD 0,
     (results.map SPR.stocksPassed).getD 0,
     (results.map SPR.averageReturn).getD 0,
     (results.map SPR.medianReturn).getD 0,
     results.bind SPR.bestPerformer,
     results.bind SPR.worstPerformer,
     (results.map SPR.details).getD []⟩
  (store ++ [record], results)

/-- The record persisted when the screening step raised. -/
def zeroRecord (screenName : String) (startDate endDate today : ℤ) : BacktestRecord :=
  ⟨screenName, today, startDate, endDate, 0, 0, 0, 0, Option.none, Option.none, []⟩

/-- C4 counterexample: with a screening step that raises (screen cannot be
resolved), `run_backtest` still persists a backtest record and returns the
empty results dict as a normal value — it neither aborts before
persistence nor surfaces the error. -/
theorem c4_error_neither_aborts_nor_surfaces :
    (runBacktest "value" ["TICK"] (Except.error "screen not found")
        (fun _ => Option.none) 0 90 90 100 []).1 ≠ [] ∧
    (runBacktest "value" ["TICK"] (Except.error "screen not found")
        (fun _ => Option.none) 0 90 90 100 []).2 = Option.none := by
  exact ⟨by simp [runBacktest], rfl⟩

/-- C4 (amended): `run_backtest` always persists exactly one record, and
when the screening step raises the error is swallowed: a record with zero
counts and zero statistics is persisted and the empty results dict is
returned instead of the error; per-ticker price-fetch failures never reach
`run_backtest` at all (they only shrink the detail list). -/
theorem c4_swallows_and_persists (screenName : String) (tickers : List String)
    (outcome : Except String (List ScreenRow))
    (prices : String → Option (List ℚ))
    (startDate endDate hp today : ℤ) (store : List BacktestRecord) :
    (runBacktest screenName tickers outcome prices
        startDate endDate hp today store).1.length = store.length + 1 ∧
    (∀ e, outcome = Except.error e →
      runBacktest screenName tickers outcome prices startDate endDate hp today store =
        (store ++ [zeroRecord screenName startDate endDate today], Option.none)) := by
  constructor
  · simp [runBacktest]
  · intro e he
    subst he
    rfl

/-- C4 witness: the amended theorem applied to a concrete failing run. -/
theorem c4_swallows_and_persists_witness :
    runBacktest "value" ["TICK"] (Except.error "screen not found")
        (fun _ => Option.none) 0 90 90 100 [] =
      ([zeroRecord "value" 0 90 100], Option.none) :=
  (c4_swallows_and_persists "value" ["TICK"] (Except.error "screen not found")
    (fun _ => Option.none) 0 90 90 100 []).2 "screen not found" rfl

theorem pyMaxBy_eq_none {α : Type} (key : α → ℚ) (l : List α) :
    pyMaxBy key l = Option.none ↔ l = [] := by
  cases l with
  | nil => simp [pyMaxBy]
  | cons a rest =>
    simp only [pyMaxBy]
    cases pyMaxBy key rest <;> simp

theorem pyMinBy_eq_none {α : Type} (key : α → ℚ) (l : List α) :
    pyMinBy key l = Option.none ↔ l = [] := by
  cases l with
  | nil => simp [pyMinBy]
  | cons a rest =>
    simp only [pyMinBy]
    cases pyMinBy key rest <;> simp

/-- `pyMaxBy` returns a member attaining the maximal key. -/
theorem pyMaxBy_spec {α : Type} (key : α → ℚ) (l : List α) (a : α)
    (h : pyMaxBy key l = some a) : a ∈ l ∧ ∀ x ∈ l, key x ≤ key a := by
  induction l generalizing a with
  | nil => exact Option.noConfusion h
  | cons b rest ih =>
    rw [pyMaxBy] at h
    rcases hr : pyMaxBy key rest with _ | c
    · rw [hr] at h
      obtain rfl := Option.some.inj h
      obtain rfl : rest = [] := (pyMaxBy_eq_none key rest).mp hr
      refine ⟨List.mem_cons_self _ _, ?_⟩
      intro x hx
      rcases List.mem_cons.mp hx with rfl | hx
      · exact le_refl _
      · exact absurd hx (List.not_mem_nil x)
    · rw [hr] at h
      dsimp only at h
      obtain ⟨hmem, hbound⟩ := ih c hr
      by_cases hk : key b < key c
      · rw [if_pos hk] at h
        obtain rfl := Option.some.inj h
        refine ⟨List.mem_cons_of_mem _ hmem, ?_⟩
        intro x hx
        rcases List.mem_cons.mp hx with rfl | hx
        · exact le_of_lt hk
        · exact hbound x hx
      · rw [if_neg hk] at h
        obtain rfl := Option.some.inj h
        refine ⟨List.mem_cons_self _ _, ?_⟩
        intro x hx
        rcases List.mem_cons.mp hx with rfl | hx
        · exact le_refl _
        · exact le_trans (hbound x hx) (not_lt.mp hk)

/-- `pyMinBy` returns a member attaining the minimal key. -/
theorem pyMinBy_spec {α : Type} (key : α → ℚ) (l : List α) (a : α)
    (h : pyMinBy key l = some a) : a ∈ l ∧ ∀ x ∈ l, key a ≤ key x := by
  induction l generalizing a with
  | nil => exact Option.noConfusion h
  | cons b rest ih =>
    rw [pyMinBy] at h
    rcases hr : pyMinBy key rest with _ | c
    · rw [hr] at h
      obtain rfl := Option.some.inj h
      obtain rfl : rest = [] := (pyMinBy_eq_none key rest).mp hr
      refine ⟨List.mem_cons_self _ _, ?_⟩
      intro x hx
      rcases List.mem_cons.mp hx with rfl | hx
      · exact le_refl _
      · exact absurd hx (List.not_mem_nil x)
    · rw [hr] at h
      dsimp only at h
      obtain ⟨hmem, hbound⟩ := ih c hr
      by_cases hk : key c < key b
      · rw [if_pos hk] at h
        obtain rfl := Option.some.inj h
        refine ⟨List.mem_cons_of_mem _ hmem, ?_⟩
        intro x hx
        rcases List.mem_cons.mp hx with rfl | hx
        · exact le_of_lt hk
        · exact hbound x hx
      · rw [if_neg hk] at h
        obtain rfl := Option.some.inj h
        refine ⟨List.mem_cons_self _ _, ?_⟩
        intro x hx
        rcases List.mem_cons.mp hx with rfl | hx
        · exact le_refl _
        · exact le_trans (not_lt.mp hk) (hbound x hx)

/-- A single backtested ticker with a return of exactly zero. -/
def c6Detail : Detail := ⟨"T", "T Ltd", 100, 100, 0, 0, 90⟩

/-- C6 counterexample: a ticker with return exactly 0 is counted in
neither `winning_stocks` (needs `r > 0`) nor `losing_stocks` (needs
`r < 0`), whereas the claim counts a zero return as a win and makes the
lose count the complement. -/
theorem c6_zero_return_counts_nowhere :
    (aggregateResults 1 1 [c6Detail]).winningStocks = some 0 ∧
    (aggregateResults 1 1 [c6Detail]).losingStocks = some 0 ∧
    (([c6Detail].map Detail.ret).countP fun r => decide (0 ≤ r)) = 1 := by
  exact ⟨rfl, rfl, by decide⟩

/-- C6 (amended): for a non-empty detail list, the win count is the number
of returns strictly greater than 0 and the lose count the number strictly
less than 0 (a zero return counts in neither, so the two need not
partition the sample), while the best and worst performers are members
attaining the maximal and minimal return. -/
theorem c6_win_lose_best_worst (n sp : ℕ) (details : List Detail)
    (h : details ≠ []) :
    (aggregateResults n sp details).winningStocks =
      some ((details.map Detail.ret).countP fun r => decide (0 < r)) ∧
    (aggregateResults n sp details).losingStocks =
      some ((details.map Detail.ret).countP fun r => decide (r < 0)) ∧
    (∃ d ∈ details, (aggregateResults n sp details).bestPerformer = some d.ticker ∧
      ∀ x ∈ details, x.ret ≤ d.ret) ∧
    (∃ d ∈ details, (aggregateResults n sp details).worstPerformer = some d.ticker ∧
      ∀ x ∈ details, d.ret ≤ x.ret) := by
  obtain ⟨b, rest, rfl⟩ : ∃ b rest, details = b :: rest := by
    cases details with
    | nil => exact absurd rfl h
    | cons b rest => exact ⟨b, rest, rfl⟩
  have hne : ((b :: rest).map Detail.ret).isEmpty = false := rfl
  have hmax : ∃ m, pyMaxBy Detail.ret (b :: rest) = some m := by
    rw [pyMaxBy]
    cases pyMaxBy Detail.ret rest <;> exact ⟨_, rfl⟩
  have hmin : ∃ m, pyMinBy Detail.ret (b :: rest) = some m := by
    rw [pyMinBy]
    cases pyMinBy Detail.ret rest <;> exact ⟨_, rfl⟩
  obtain ⟨mx, hmx⟩ := hmax
  obtain ⟨mn, hmn⟩ := hmin
  obtain ⟨hmx_mem, hmx_bound⟩ := pyMaxBy_spec Detail.ret (b :: rest) mx hmx
  obtain ⟨hmn_mem, hmn_bound⟩ := pyMinBy_spec Detail.ret (b :: rest) mn hmn
  refine ⟨?_, ?_, ⟨mx, hmx_mem, ?_, hmx_bound⟩, ⟨mn, hmn_mem, ?_, hmn_bound⟩⟩
  · simp [aggregateResults, hne]
  · simp [aggregateResults, hne]
  · simp [aggregateResults, hne, hmx]
  · simp [aggregateResults, hne, hmn]

/-- C6 witness: the amended theorem applied to a concrete one-element
detail list. -/
theorem c6_win_lose_best_worst_witness :
    (aggregateResults 2 1 [c6Detail]).winningStocks =
      some (([c6Detail].map Detail.ret).countP fun r => decide (0 < r)) ∧
    (aggregateResults 2 1 [c6Detail]).losingStocks =
      some (([c6Detail].map Detail.ret).countP fun r => decide (r < 0)) ∧
    (∃ d ∈ [c6Detail], (aggregateResults 2 1 [c6Detail]).bestPerformer = some d.ticker ∧
      ∀ x ∈ [c6Detail], x.ret ≤ d.ret) ∧
    (∃ d ∈ [c6Detail], (aggregateResults 2 1 [c6Detail]).worstPerformer = some d.ticker ∧
      ∀ x ∈ [c6Detail], d.ret ≤ x.ret) :=
  c6_win_lose_best_worst 2 1 [c6Detail] (by simp)

/-- C7: every detail row of a completed single-period backtest carries
sell date `min(startDate + holdingPeriodDays, endDate)` and return
`(sellPrice − buyPrice) / buyPrice × 100`; in particular a two-point
history with buy 100 and sell 110 yields exactly 10. -/
theorem c7_sell_date_and_return (tickers : List String)
    (rows : List ScreenRow) (prices : String → Option (List ℚ))
    (screenDate endDate hp : ℤ) (spr : SPR) (d : Detail)
    (h : backtestSinglePeriod tickers (.ok rows) prices screenDate endDate hp = some spr)
    (hd : d ∈ spr.details) :
    (d.sellDate = min (screenDate + hp) endDate ∧
     d.ret = (d.sellPrice - d.buyPrice) / d.buyPrice * 100) ∧
    calculateReturn [100, 110] = some ⟨100, 110, 10⟩ := by
  refine ⟨?_, by norm_num [calculateReturn, List.getLast]⟩
  rw [backtestSinglePeriod] at h
  by_cases hrows : rows.isEmpty
  · rw [if_pos hrows] at h
    obtain rfl := Option.some.inj h
    exact absurd hd (List.not_mem_nil d)
  · rw [if_neg hrows] at h
    obtain rfl := Option.some.inj h
    rw [aggregateResults] at hd
    by_cases hret :
        ((rows.filterMap fun row =>
          ((prices row.ticker).bind calculateReturn).map fun rd =>
            Detail.mk row.ticker (row.companyName.getD row.ticker)
              rd.buyPrice rd.sellPrice rd.ret screenDate
              (min (screenDate + hp) endDate)).map Detail.ret).isEmpty
    · rw [if_pos hret] at hd
      exact absurd hd (List.not_mem_nil d)
    · rw [if_neg hret] at hd
      obtain ⟨row, hrow, hf⟩ := List.mem_filterMap.mp hd
      rcases hb : (prices row.ticker).bind calculateReturn with _ | rd
      · rw [hb] at hf; exact Option.noConfusion hf
      · rw [hb] at hf
        obtain rfl := Option.some.inj hf
        rcases hp2 : prices row.ticker with _ | hist
        · rw [hp2] at hb; exact Option.noConfusion hb
        · rw [hp2, Option.some_bind] at hb
          constructor
          · rfl
          · show rd.ret = (rd.sellPrice - rd.buyPrice) / rd.buyPrice * 100
            match hist, hb with
            | a :: b2 :: rest2, hb => ?_
            rw [calculateReturn] at hb
            by_cases ha : a = 0
            · rw [if_pos ha] at hb; exact Option.noConfusion hb
            · rw [if_neg ha] at hb
              obtain rfl := (Option.some.inj hb).symm
              rfl

/-- The screening row of the C7 witness run. -/
def c7Row : ScreenRow := ⟨"TICK", some "Tick Ltd"⟩

/-- The detail row the C7 witness run produces (return and sell date kept
in the unreduced form the engine computes). -/
def c7Detail : Detail :=
  ⟨"TICK", "Tick Ltd", 100, 110, (110 - 100) / 100 * 100, 0, min (0 + 90) 50⟩

/-- C7 witness: the theorem applied to a concrete run over a two-point
price history with buy 100 and sell 110, holding period 90 days and end
date 50. -/
theorem c7_sell_date_and_return_witness :
    (c7Detail.sellDate = min ((0 : ℤ) + 90) 50 ∧
     c7Detail.ret = (c7Detail.sellPrice - c7Detail.buyPrice) / c7Detail.buyPrice * 100) ∧
    calculateReturn [100, 110] = some ⟨100, 110, 10⟩ :=
  c7_sell_date_and_return ["TICK"] [c7Row] (fun _ => some [100, 110]) 0 50 90
    (aggregateResults 1 1 [c7Detail]) c7Detail rfl (List.mem_singleton.mpr rfl)

/-! ## Technical signals endpoint: `get_signals` in the API layer

One row of the latest-indicator query, the optional backfill outcome, and
the per-ticker item construction with its boolean signals. -/

/-- A row of the signals query (latest fundamentals and technical
indicators per ticker; `Option.none` = SQL `NULL`). -/
structure SignalRow where
  ticker : String
  companyName : Option String
  currentPrice : Option ℚ
  ema20 : Option ℚ
  ema50 : Option ℚ
  macd : Option ℚ
  chop : Option ℚ
deriving DecidableEq, Repr

/-- The indicator dictionary a successful backfill recompute returns. -/
structure TechInd where
  ema20 : Option ℚ
  ema50 : Option ℚ
  macd : Option ℚ
  chop : Option ℚ
deriving DecidableEq, Repr

/-- Python `x or d` for a nullable float: `None` and `0.0` are falsy. -/
def pyOr (x : Option ℚ) (dflt : ℚ) : ℚ :=
  match x with
  | some v => if v = 0 then dflt else v
  | Option.none => dflt

/-- Round to the nearest integer, halves to even (Python `round`). -/
def roundHalfEven (x : ℚ) : ℤ :=
  let fl := ⌊x⌋
  let r := x - fl
  if r < 1 / 2 then fl
  else if 1 / 2 < r then fl + 1
  else if Even fl then fl else fl + 1

/-- Python `round(x, 2)`. -/
def pyRound2 (x : ℚ) : ℚ := (roundHalfEven (x * 100) : ℚ) / 100

/-- One item of the signals response. -/
structure SignalItem where
  ticker : String
  companyName : Option String
  currentPrice : ℚ
  ema20 : ℚ
  ema50 : ℚ
  macd : ℚ
  choppinessIndex : ℚ
  emaBullish : Bool
  emaBearish : Bool
  macdBullish : Bool
  macdBearish : Bool
  trending : Bool
  choppy : Bool
deriving DecidableEq, Repr

/-- The lazy backfill step of `get_signals`: attempted only when some
coerced indicator is zero and the ticker is truthy; a failed fetch or a
falsy indicators dict (`backfill = Option.none`) leaves the values
unchanged, a successful recompute overrides each value through
`indicators.get(...) or current`. -/
def backfillVals (e20 e50 m ch : ℚ) (ticker : String)
    (backfill : Option TechInd) : ℚ × ℚ × ℚ × ℚ :=
  if (e20 = 0 ∨ e50 = 0 ∨ m = 0 ∨ ch = 0) ∧ ticker ≠ "" then
    match backfill with
    | some ind => (pyOr ind.ema20 e20, pyOr ind.ema50 e50, pyOr ind.macd m, pyOr ind.chop ch)
    | Option.none => (e20, e50, m, ch)
  else (e20, e50, m, ch)

/-- The per-row body of the `get_signals` loop: coerce `NULL` indicators
to 0, optionally backfill, then derive the boolean signals from the
unrounded values and report the rounded values. -/
def buildSignalItem (r : SignalRow) (backfill : Option TechInd) : SignalItem :=
  let price := pyOr r.currentPrice 0
  let vals := backfillVals (pyOr r.ema20 0) (pyOr r.ema50 0) (pyOr r.macd 0)
    (pyOr r.chop 0) r.ticker backfill
  let e20 := vals.1
  let e50 := vals.2.1
  let m := vals.2.2.1
  let ch := vals.2.2.2
  { ticker := r.ticker
    companyName := r.companyName
    currentPrice := pyRound2 price
    ema20 := pyRound2 e20
    ema50 := pyRound2 e50
    macd := pyRound2 m
    choppinessIndex := pyRound2 ch
    emaBullish := decide (e20 < price) && decide (e50 < e20)
    emaBearish := decide (price < e20) && decide (e20 < e50)
    macdBullish := decide (0 < m)
    macdBearish := decide (m < 0)
    trending := decide (ch ≤ 38.2)
    choppy := decide (61.8 ≤ ch) }

theorem backfillVals_none (e20 e50 m ch : ℚ) (ticker : String) :
    backfillVals e20 e50 m ch ticker Option.none = (e20, e50, m, ch) := by
  rw [backfillVals]
  by_cases h : (e20 = 0 ∨ e50 = 0 ∨ m = 0 ∨ ch = 0) ∧ ticker ≠ "" <;> simp [h]

/-- C9: when the stored choppiness index is `NULL` and the backfill does
not repair it, the item reports `choppiness_index = 0` with
`trending = true` (0 ≤ 38.2) and `choppy = false`; a `NULL` MACD likewise
yields `macd_bullish = false` and `macd_bearish = false`.  Absent
indicators are reported as concrete zeros, never as unavailable. -/
theorem c9_null_indicators_coerced (r : SignalRow) (hch : r.chop = Option.none) :
    (buildSignalItem r Option.none).choppinessIndex = 0 ∧
    (buildSignalItem r Option.none).trending = true ∧
    (buildSignalItem r Option.none).choppy = false ∧
    (r.macd = Option.none →
      (buildSignalItem r Option.none).macdBullish = false ∧
      (buildSignalItem r Option.none).macdBearish = false) := by
  refine ⟨?_, ?_, ?_, fun hm => ⟨?_, ?_⟩⟩
  · simp only [buildSignalItem, backfillVals_none, hch]
    norm_num [pyRound2, roundHalfEven, pyOr]
  · simp only [buildSignalItem, backfillVals_none, hch]
    norm_num [pyOr]
  · simp only [buildSignalItem, backfillVals_none, hch]
    norm_num [pyOr]
  · simp only [buildSignalItem, backfillVals_none, hm]
    norm_num [pyOr]
  · simp only [buildSignalItem, backfillVals_none, hm]
    norm_num [pyOr]

/-- C9 witness: a row with every indicator `NULL` and a failed backfill. -/
theorem c9_null_indicators_coerced_witness :
    (buildSignalItem
        ⟨"TICK", some "Tick Ltd", Option.none, Option.none, Option.none,
         Option.none, Option.none⟩ Option.none).choppinessIndex = 0 ∧
    (buildSignalItem
        ⟨"TICK", some "Tick Ltd", Option.none, Option.none, Option.none,
         Option.none, Option.none⟩ Option.none).trending = true ∧
    (buildSignalItem
        ⟨"TICK", some "Tick Ltd", Option.none, Option.none, Option.none,
         Option.none, Option.none⟩ Option.none).choppy = false ∧
    ((⟨"TICK", some "Tick Ltd", Option.none, Option.none, Option.none,
       Option.none, Option.none⟩ : SignalRow).macd = Option.none →
      (buildSignalItem
          ⟨"TICK", some "Tick Ltd", Option.none, Option.none, Option.none,
           Option.none, Option.none⟩ Option.none).macdBullish = false ∧
      (buildSignalItem
          ⟨"TICK", some "Tick Ltd", Option.none, Option.none, Option.none,
           Option.none, Option.none⟩ Option.none).macdBearish = false) :=
  c9_null_indicators_coerced
    ⟨"TICK", some "Tick Ltd", Option.none, Option.none, Option.none,
     Option.none, Option.none⟩ rfl

/-! ## Watchlist: `Database.add_to_watchlist` and
`PortfolioTracker.add_to_watchlist` -/

/-- A `watchlist` row (the columns the add path writes). -/
structure WatchlistEntry where
  ticker : String
  targetPrice : Option ℚ
  notes : Option String
  addedDate : ℤ
deriving DecidableEq, Repr

/-- Python `str.upper()` as a character map (equivalent to `str.upper`
for the ASCII tickers this system handles; the core `String.toUpper`
is avoided because its loop does not reduce in the kernel). -/
def pyUpper (s : String) : String := ⟨s.data.map Char.toUpper⟩

/-- `Database.add_to_watchlist`: inserts only when no row with the same
ticker exists; otherwise the state is untouched. -/
def dbAddToWatchlist (st : List WatchlistEntry) (e : WatchlistEntry) :
    List WatchlistEntry :=
  if st.any fun w => w.ticker == e.ticker then st else st ++ [e]

/-- `PortfolioTracker.add_to_watchlist`: uppercases the ticker, stamps the
date, delegates to the database and returns `True` unconditionally. -/
def trackerAddToWatchlist (st : List WatchlistEntry) (ticker : String)
    (targetPrice : Option ℚ) (notes : Option String) (today : ℤ) :
    List WatchlistEntry × Bool :=
  (dbAddToWatchlist st ⟨pyUpper ticker, targetPrice, notes, today⟩, true)

/-- C10: adding a ticker that already has a watchlist entry leaves the
watchlist unchanged (no overwrite, no new row) yet reports success, and
every add preserves ticker-uniqueness of the entries. -/
theorem c10_duplicate_add_is_noop (st : List WatchlistEntry) (ticker : String)
    (targetPrice : Option ℚ) (notes : Option String) (today : ℤ) :
    ((∃ w ∈ st, w.ticker = pyUpper ticker) →
      trackerAddToWatchlist st ticker targetPrice notes today = (st, true)) ∧
    (List.Pairwise (fun a b => a.ticker ≠ b.ticker) st →
      List.Pairwise (fun a b => a.ticker ≠ b.ticker)
        (trackerAddToWatchlist st ticker targetPrice notes today).1) := by
  constructor
  · intro h
    obtain ⟨w, hw, hwt⟩ := h
    have hany : (st.any fun w => w.ticker == pyUpper ticker) = true :=
      List.any_eq_true.mpr ⟨w, hw, by simp [hwt]⟩
    simp [trackerAddToWatchlist, dbAddToWatchlist, hany]
  · intro hp
    by_cases hany : (st.any fun w => w.ticker == pyUpper ticker) = true
    · simpa [trackerAddToWatchlist, dbAddToWatchlist, hany] using hp
    · have hnone : ∀ w ∈ st, w.ticker ≠ pyUpper ticker := by
        intro w hw heq
        exact hany (List.any_eq_true.mpr ⟨w, hw, by simp [heq]⟩)
      rw [Bool.not_eq_true] at hany
      show List.Pairwise (fun a b => a.ticker ≠ b.ticker)
        (dbAddToWatchlist st ⟨pyUpper ticker, targetPrice, notes, today⟩)
      rw [dbAddToWatchlist, hany, if_neg Bool.false_ne_true,
        List.pairwise_append]
      exact ⟨hp, List.pairwise_singleton _ _,
        fun a ha b hb => by
          rw [List.mem_singleton.mp hb]
          exact hnone a ha⟩

/-- C10 witness: a duplicate add (case-insensitively the same ticker)
against a one-entry watchlist. -/
theorem c10_duplicate_add_is_noop_witness :
    trackerAddToWatchlist [⟨"TICK", some 5, Option.none, 0⟩] "tick"
        (some 7) (some "note") 9 =
      ([⟨"TICK", some 5, Option.none, 0⟩], true) ∧
    List.Pairwise (fun a b => a.ticker ≠ b.ticker)
      (trackerAddToWatchlist [⟨"TICK", some 5, Option.none, 0⟩] "tick"
          (some 7) (some "note") 9).1 :=
  ⟨(c10_duplicate_add_is_noop [⟨"TICK", some 5, Option.none, 0⟩] "tick"
      (some 7) (some "note") 9).1
    ⟨⟨"TICK", some 5, Option.none, 0⟩, List.mem_singleton.mpr rfl, by decide⟩,
   (c10_duplicate_add_is_noop [⟨"TICK", some 5, Option.none, 0⟩] "tick"
      (some 7) (some "note") 9).2 (List.pairwise_singleton _ _)⟩

/-! ## Portfolio: `Database.add_to_portfolio` and
`PortfolioTracker.add_holding` -/

/-- A `portfolio` row (the columns the add path writes; the table has no
uniqueness constraint beyond its autoincrement id). -/
structure Holding where
  ticker : String
  quantity : ℚ
  purchasePrice : ℚ
  currentPrice : Option ℚ
  purchaseDate : ℤ
  notes : Option String
deriving DecidableEq, Repr

/-- `Database.add_to_portfolio`: unconditionally inserts the holding.  The
method body has no return statement, so its Python value is `None`. -/
def dbAddToPortfolio (st : List Holding) (h : Holding) :
    List Holding × Option Bool :=
  (st ++ [h], Option.none)

/-- `PortfolioTracker.add_holding`: builds the row, inserts it through the
database, then truth-tests the database return value — which is always
`None`, so the duplicate-warning branch runs and `False` is returned on
every call, duplicate or not. -/
def addHolding (st : List Holding) (ticker : String)
    (quantity purchasePrice : ℚ) (purchaseDate : ℤ) (notes : Option String)
    (currentPrice : Option ℚ) : List Holding × Bool :=
  let holding : Holding :=
    ⟨pyUpper ticker, quantity, purchasePrice, currentPrice, purchaseDate, notes⟩
  let result := dbAddToPortfolio st holding
  match result.2 with
  | some true => (result.1, true)
  | _ => (result.1, false)

/-- C5: two identical adds of (`TICK`, qty 10, price 100, date 0) both
insert — the exact duplicate coexists with the original in the final
state — and both calls return `False` (no `DuplicateError` exists
anywhere in the code); even the first, non-duplicate add reports
failure. -/
theorem c5_duplicates_coexist :
    (addHolding
        (addHolding [] "TICK" 10 100 0 Option.none Option.none).1
        "TICK" 10 100 0 Option.none Option.none).1 =
      [⟨"TICK", 10, 100, Option.none, 0, Option.none⟩,
       ⟨"TICK", 10, 100, Option.none, 0, Option.none⟩] ∧
    (addHolding [] "TICK" 10 100 0 Option.none Option.none).2 = false ∧
    (addHolding
        (addHolding [] "TICK" 10 100 0 Option.none Option.none).1
        "TICK" 10 100 0 Option.none Option.none).2 = false := by
  exact ⟨rfl, rfl, rfl⟩

end Screener
